import Mathlib

/-!
Shallow embedding of the botlist.space API client (src/unnamed/part_000 and
src/lib/Structures/Bot.js) together with spec-modelled versions of the
structures that are not shipped under src/ (Collection, Pagination, User,
Upvote, Statistics, HTTPError).

Every Client operation is split into its synchronous part (argument
validation, building the single HTTP request; a thrown JS error is an
`Except.error`) and its asynchronous handler (mapping the transport outcome
of that request to the promise outcome).
-/

namespace ApiClient

/-- A JavaScript value, as far as this client manipulates them.  Numbers are
modelled as rationals (NaN and signed zero are not modelled; no claim needs
them). -/
inductive JSVal where
  | undefined : JSVal
  | null : JSVal
  | bool : Bool → JSVal
  | num : ℚ → JSVal
  | str : String → JSVal
  | arr : List JSVal → JSVal
  | obj : List (String × JSVal) → JSVal

mutual

/-- Structural equality on JS values, used for map keys.  JS Map keys are
compared with SameValueZero; the client only ever uses primitive keys (the
`id` strings of the listed entities), on which SameValueZero is structural. -/
def JSVal.beq : JSVal → JSVal → Bool
  | .undefined, .undefined => true
  | .null, .null => true
  | .bool a, .bool b => a == b
  | .num a, .num b => a == b
  | .str a, .str b => a == b
  | .arr xs, .arr ys => beqList xs ys
  | .obj fs, .obj gs => beqFields fs gs
  | _, _ => false

/-- Elementwise `JSVal.beq` on lists. -/
def beqList : List JSVal → List JSVal → Bool
  | [], [] => true
  | x :: xs, y :: ys => JSVal.beq x y && beqList xs ys
  | _, _ => false

/-- Elementwise `JSVal.beq` on field lists. -/
def beqFields : List (String × JSVal) → List (String × JSVal) → Bool
  | [], [] => true
  | (k, v) :: fs, (l, w) :: gs => k == l && JSVal.beq v w && beqFields fs gs
  | _, _ => false

end

/-- A synchronously thrown JavaScript error. `synError` stands for the JS
SyntaxError class. -/
inductive JsError where
  | typeError : String → JsError
  | synError : String → JsError
deriving DecidableEq

/-- Property lookup in an object field list: the value of the first binding
of the key, JS `undefined` when the key is absent. -/
def jsLookup (fs : List (String × JSVal)) (k : String) : JSVal :=
  match fs.find? (fun e => e.1 = k) with
  | some e => e.2
  | none => JSVal.undefined

/-- JS property access `v[p]`: throws a TypeError on `undefined`/`null`,
looks the key up on objects, exposes `length` on arrays and strings, and
yields `undefined` on the remaining primitives. -/
def JSVal.getProp : JSVal → String → Except JsError JSVal
  | .undefined, p => .error (.typeError ("Cannot read property " ++ p ++ " of undefined"))
  | .null, p => .error (.typeError ("Cannot read property " ++ p ++ " of null"))
  | .obj fs, p => .ok (jsLookup fs p)
  | .arr xs, p => .ok (if p = "length" then .num xs.length else .undefined)
  | .str s, p => .ok (if p = "length" then .num s.length else .undefined)
  | _, _ => .ok .undefined

/-- JS numeric indexing `v[i]` (for a natural index): throws on
`undefined`/`null`, indexes arrays (out of range gives `undefined`), looks up
the stringified index on objects, indexes strings by character. -/
def JSVal.indexNum : JSVal → ℕ → Except JsError JSVal
  | .undefined, i => .error (.typeError ("Cannot read property " ++ toString i ++ " of undefined"))
  | .null, i => .error (.typeError ("Cannot read property " ++ toString i ++ " of null"))
  | .arr xs, i => .ok (xs.getD i .undefined)
  | .obj fs, i => .ok (jsLookup fs (toString i))
  | .str s, i => .ok (if i < s.length then .str (String.mk (s.toList.drop i |>.take 1)) else .undefined)
  | _, _ => .ok .undefined

/-- JS `typeof v === "number"`. -/
def JSVal.isNum : JSVal → Bool
  | .num _ => true
  | _ => false

/-- JS `typeof v === "string"`. -/
def JSVal.isStr : JSVal → Bool
  | .str _ => true
  | _ => false

/-- JS `Array.isArray(v)`. -/
def JSVal.isArr : JSVal → Bool
  | .arr _ => true
  | _ => false

/-- JS truthiness. -/
def JSVal.truthy : JSVal → Bool
  | .undefined => false
  | .null => false
  | .bool b => b
  | .num q => q ≠ 0
  | .str s => s ≠ ""
  | .arr _ => true
  | .obj _ => true

/-- JS `v < q` for a numeric bound: false unless `v` is a number. -/
def JSVal.ltNum (v : JSVal) (q : ℚ) : Bool :=
  match v with
  | .num p => p < q
  | _ => false

/-- Number of iterations of a JS loop `for (let i = 0; i < len; i++)` whose
bound `len` is a fixed value: comparisons against non-numbers are false, so
only a numeric bound produces iterations. -/
def iterCount (len : JSVal) : ℕ :=
  match len with
  | .num q => if q ≤ 0 then 0 else q.ceil.toNat
  | _ => 0

/-- Modelled from the spec: src/lib/Structures/Collection.js is not under
src/ (only required by the client and Bot.js).  Spec section 4.1 describes it
as a generic ordered map: unique keys, insertion order preserved for
iteration, `set` inserts or overwrites (the original insertion position is
preserved on overwrite, as for a native JS Map), `has` is a boolean
membership test, `array` materializes the values in insertion order. -/
structure Collection (V : Type) where
  entries : List (JSVal × V)

/-- The empty collection. -/
def Collection.empty {V : Type} : Collection V := ⟨[]⟩

/-- Inserts or overwrites; an existing key keeps its insertion position. -/
def Collection.set {V : Type} (c : Collection V) (k : JSVal) (v : V) : Collection V :=
  if c.entries.any (fun e => JSVal.beq e.1 k) then
    ⟨c.entries.map (fun e => if JSVal.beq e.1 k then (e.1, v) else e)⟩
  else
    ⟨c.entries ++ [(k, v)]⟩

/-- Boolean membership test on keys. -/
def Collection.has {V : Type} (c : Collection V) (k : JSVal) : Bool :=
  c.entries.any (fun e => JSVal.beq e.1 k)

/-- The value bound to a key, if any. -/
def Collection.get {V : Type} (c : Collection V) (k : JSVal) : Option V :=
  (c.entries.find? (fun e => JSVal.beq e.1 k)).map (fun e => e.2)

/-- The values in insertion order. -/
def Collection.array {V : Type} (c : Collection V) : List V :=
  c.entries.map (fun e => e.2)

/-- The keys in insertion order. -/
def Collection.keyArray {V : Type} (c : Collection V) : List JSVal :=
  c.entries.map (fun e => e.1)

/-- Modelled from the spec: src/lib/Structures/Pagination.js is not under
src/.  Spec section 4.2: same contract as the ordered map plus page metadata
parsed from the response envelope; the constructor performs no HTTP I/O and
adds no items — the caller iterates the raw results array and calls
`set(id, wrappedEntity)` for each item.  The envelope is retained for the
metadata accessors. -/
structure Pagination (V : Type) where
  envelope : JSVal
  coll : Collection V

/-- Builds a Pagination from a response envelope: metadata only, no items. -/
def Pagination.construct {V : Type} (body : JSVal) : Pagination V :=
  ⟨body, Collection.empty⟩

/-- Delegates to the underlying ordered map. -/
def Pagination.set {V : Type} (p : Pagination V) (k : JSVal) (v : V) : Pagination V :=
  ⟨p.envelope, p.coll.set k v⟩

/-- Delegates to the underlying ordered map. -/
def Pagination.has {V : Type} (p : Pagination V) (k : JSVal) : Bool :=
  p.coll.has k

/-- Delegates to the underlying ordered map. -/
def Pagination.array {V : Type} (p : Pagination V) : List V :=
  p.coll.array

/-- Delegates to the underlying ordered map. -/
def Pagination.keyArray {V : Type} (p : Pagination V) : List JSVal :=
  p.coll.keyArray

/-- Modelled from the spec: src/lib/Structures/User.js is not under src/.
Spec section 4.3: entity wrappers are pure data-mapping from a raw JSON
object, constructed without I/O and without mutating the input.  The wrapper
is modelled as retaining its raw object. -/
structure User where
  raw : JSVal

/-- Wraps a raw user object. -/
def User.construct (raw : JSVal) : User := ⟨raw⟩

/-- Modelled from the spec: src/lib/Structures/Upvote.js is not under src/.
Spec section 4.3 and glossary: a record that a given user endorsed a given
bot, wrapped without I/O from the raw JSON object. -/
structure Upvote where
  raw : JSVal

/-- Wraps a raw upvote object. -/
def Upvote.construct (raw : JSVal) : Upvote := ⟨raw⟩

/-- Modelled from the spec: src/lib/Structures/Statistics.js is not under
src/.  Spec section 2: a typed view over the site-wide counts returned by
the statistics endpoint, wrapped without I/O from the raw JSON body. -/
structure Statistics where
  raw : JSVal

/-- Wraps a raw statistics body. -/
def Statistics.construct (raw : JSVal) : Statistics := ⟨raw⟩

/-- A bot listed on the site (src/lib/Structures/Bot.js).  Field values are
raw JS values copied from the wire object; `owners` is the nested collection
of wrapped users.  The source field named after the command word for bot
commands is called `botPrefix` here. -/
structure Bot where
  id : JSVal
  username : JSVal
  discriminator : JSVal
  shortDescription : JSVal
  fullDescription : JSVal
  avatarURL : JSVal
  invite : JSVal
  avatarChildFriendly : JSVal
  library : JSVal
  botPrefix : JSVal
  owners : Collection User
  vanity : JSVal
  links : JSVal
  createdAt : JSVal
  updatedAt : JSVal

/-- The owners loop of the Bot constructor:
`for (let i = 0; i < bot.owners.length; i++)
   this.owners.set(bot.owners[i].id, new User(bot.owners[i]))`.
The loop bound is the `length` property of the raw owners value (a TypeError
when owners is undefined or null); each step reads the entry, its `id`, and
wraps the entry as a User. -/
def ownersLoop (ownersRaw : JSVal) : Except JsError (Collection User) := do
  let len ← ownersRaw.getProp "length"
  (List.range (iterCount len)).foldlM
    (fun coll i => do
      let entry ← ownersRaw.indexNum i
      let key ← entry.getProp "id"
      let entryAgain ← ownersRaw.indexNum i
      pure (coll.set key (User.construct entryAgain)))
    Collection.empty

/-- The Bot constructor: copies each wire field (absent fields come through
as `undefined`), and builds the owners collection by iterating
`bot.owners`. -/
def Bot.construct (bot : JSVal) : Except JsError Bot := do
  let id ← bot.getProp "id"
  let username ← bot.getProp "username"
  let discriminator ← bot.getProp "discriminator"
  let shortDescription ← bot.getProp "short_description"
  let fullDescription ← bot.getProp "full_description"
  let avatarURL ← bot.getProp "avatar"
  let invite ← bot.getProp "invite"
  let avatarChildFriendly ← bot.getProp "avatarChildFriendly"
  let library ← bot.getProp "library"
  let botPrefix ← bot.getProp "prefix"
  let ownersRaw ← bot.getProp "owners"
  let owners ← ownersLoop ownersRaw
  let vanity ← bot.getProp "vanity"
  let links ← bot.getProp "links"
  let createdAt ← bot.getProp "created_at"
  let updatedAt ← bot.getProp "updated_at"
  pure {
    id := id, username := username, discriminator := discriminator,
    shortDescription := shortDescription, fullDescription := fullDescription,
    avatarURL := avatarURL, invite := invite,
    avatarChildFriendly := avatarChildFriendly, library := library,
    botPrefix := botPrefix, owners := owners, vanity := vanity,
    links := links, createdAt := createdAt, updatedAt := updatedAt }

/-- `Bot.getOwners()`: the collection of wrapped owners. -/
def Bot.getOwners (b : Bot) : Collection User := b.owners

/-- A promise rejection value.  `transport` is the raw error delivered by the
HTTP layer (snekfetch); `thrown` is a JS error raised inside a `.then`
callback; `httpError` is the HTTPError wrapper.  Modelled from the spec for
the wrapper itself: src/lib/Structures/Error.js is not under src/, and spec
section 4.4 describes HTTPError as a uniform wrapper constructed from the
underlying transport failure object. -/
inductive PromiseErr where
  | transport : JSVal → PromiseErr
  | thrown : JsError → PromiseErr
  | httpError : PromiseErr → PromiseErr

/-- The outcome of the single HTTP round trip: the decoded response body on
success, the transport error value on failure. -/
def TransportOutcome : Type := Except JSVal JSVal

/-- The descriptor of the one HTTP request an operation issues. -/
structure Request where
  method : String
  url : String
  query : List (String × JSVal)
  headers : List (String × String)
  reqBody : Option JSVal

/-- A configured client.  The constructor validates that `id` and `botToken`
are strings (and `userToken`, when present), so a constructed client holds
strings. -/
structure Client where
  id : String
  userToken : Option String
  botToken : String

/-- The fixed base URL assigned in the Client constructor. -/
def baseURL : String := "https://api.botlist.space/v1"

/-- Synchronous part of `getStatistics()`: no validation, one GET. -/
def Client.getStatistics (_c : Client) : Request :=
  ⟨"GET", baseURL ++ "/statistics", [], [], none⟩

/-- Handler of `getStatistics()`: on success wraps the body in Statistics; on
failure the source runs `reject(error, new HTTPError(error))` — JS `reject`
takes a single argument, so the promise rejects with the raw transport error
and the freshly constructed HTTPError is discarded. -/
def Client.getStatisticsHandle (outcome : TransportOutcome) : Except PromiseErr Statistics :=
  match outcome with
  | .ok body => .ok (Statistics.construct body)
  | .error e => .error (.transport e)

/-- Synchronous part of `getAllBots(page = 1)`: page must be a number, and
not less than 1; then one GET with the page as query parameter. -/
def Client.getAllBots (_c : Client) (page : JSVal) : Except JsError Request :=
  if ¬ page.isNum then .error (.typeError "Page must be a number")
  else if page.ltNum 1 then .error (.synError "Page must be a number greater than 0.")
  else .ok ⟨"GET", baseURL ++ "/bots", [("page", page)], [], none⟩

/-- The `.then` callback of `getAllBots`: builds a Pagination from the body,
then loops `for (let i = 0; i < result.body.bots.length; i++)
  pagination.set(result.body[i].id, new Bot(result.body.bots[i]))`.
Note the loop key expression indexes `result.body` (the envelope object),
not `result.body.bots`. -/
def getAllBotsThen (body : JSVal) : Except JsError (Pagination Bot) := do
  let pagination : Pagination Bot := Pagination.construct body
  let bots ← body.getProp "bots"
  let len ← bots.getProp "length"
  (List.range (iterCount len)).foldlM
    (fun pag i => do
      let item ← body.indexNum i
      let key ← item.getProp "id"
      let rawBot ← bots.indexNum i
      let bot ← Bot.construct rawBot
      pure (pag.set key bot))
    pagination

/-- Handler of `getAllBots`: a thrown error in the `.then` callback, like a
transport failure, is wrapped in HTTPError by the `.catch`. -/
def Client.getAllBotsHandle (outcome : TransportOutcome) : Except PromiseErr (Pagination Bot) :=
  match outcome with
  | .ok body =>
    match getAllBotsThen body with
    | .ok p => .ok p
    | .error e => .error (.httpError (.thrown e))
  | .error e => .error (.httpError (.transport e))

/-- Synchronous part of `getBot(id)`: id must be a string; one GET. -/
def Client.getBot (_c : Client) (id : JSVal) : Except JsError Request :=
  match id with
  | .str s => .ok ⟨"GET", baseURL ++ "/bots/" ++ s, [], [], none⟩
  | _ => .error (.typeError "ID must be a string")

/-- Handler of `getBot(id)`: wraps the body in a Bot; an error thrown by the
Bot constructor, like a transport failure, becomes an HTTPError rejection. -/
def Client.getBotHandle (outcome : TransportOutcome) : Except PromiseErr Bot :=
  match outcome with
  | .ok body =>
    match Bot.construct body with
    | .ok b => .ok b
    | .error e => .error (.httpError (.thrown e))
  | .error e => .error (.httpError (.transport e))

/-- Synchronous part of `getUpvotes(page = 1)`: the only validation is that
page is a number — there is no lower-bound check here, unlike `getAllBots`
and `getUserBots`.  One authorized GET. -/
def Client.getUpvotes (c : Client) (page : JSVal) : Except JsError Request :=
  if ¬ page.isNum then .error (.typeError "Page must be a number.")
  else .ok ⟨"GET", baseURL ++ "/bots/" ++ c.id ++ "/upvotes", [("page", page)],
        [("Authorization", c.botToken)], none⟩

/-- The `.then` callback of `getUpvotes`: same shape as `getAllBots`, over
the `upvotes` array and the Upvote wrapper, with the same envelope-indexed
key expression `result.body[i].id`. -/
def getUpvotesThen (body : JSVal) : Except JsError (Pagination Upvote) := do
  let pagination : Pagination Upvote := Pagination.construct body
  let upvotes ← body.getProp "upvotes"
  let len ← upvotes.getProp "length"
  (List.range (iterCount len)).foldlM
    (fun pag i => do
      let item ← body.indexNum i
      let key ← item.getProp "id"
      let rawUpvote ← upvotes.indexNum i
      pure (pag.set key (Upvote.construct rawUpvote)))
    pagination

/-- Handler of `getUpvotes`. -/
def Client.getUpvotesHandle (outcome : TransportOutcome) : Except PromiseErr (Pagination Upvote) :=
  match outcome with
  | .ok body =>
    match getUpvotesThen body with
    | .ok p => .ok p
    | .error e => .error (.httpError (.thrown e))
  | .error e => .error (.httpError (.transport e))

/-- Synchronous part of `hasUpvoted(userID)`: userID must be a string, then
the request of `this.getUpvotes()` — with the default page 1. -/
def Client.hasUpvoted (c : Client) (userID : JSVal) : Except JsError Request :=
  if ¬ userID.isStr then .error (.typeError "User ID must be a string")
  else c.getUpvotes (.num 1)

/-- Handler of `hasUpvoted(userID)`: resolves `pagination.has(userID)` when
`getUpvotes` resolves, and passes a rejection through unchanged
(`reject(error)`, no further wrapping). -/
def Client.hasUpvotedHandle (userID : JSVal) (outcome : TransportOutcome) : Except PromiseErr Bool :=
  match Client.getUpvotesHandle outcome with
  | .ok pagination => .ok (pagination.has userID)
  | .error e => .error e

/-- `getSelfBot()`: `return this.getBot(this._options.id)`. -/
def Client.getSelfBot (c : Client) : Except JsError Request :=
  c.getBot (.str c.id)

/-- Handler of `getSelfBot()`: the promise is the one returned by `getBot`,
so its handler is `getBotHandle`. -/
def Client.getSelfBotHandle (outcome : TransportOutcome) : Except PromiseErr Bot :=
  Client.getBotHandle outcome

/-- Synchronous part of `postServerCount(count)`: count must be a number or
an array; an array is sent as `{shards: count}`, a number as
`{server_count: count}`.  One authorized POST. -/
def Client.postServerCount (c : Client) (count : JSVal) : Except JsError Request :=
  if ¬ count.isNum ∧ ¬ count.isArr then
    .error (.typeError "Server count is not a number nor shards array")
  else
    .ok ⟨"POST", baseURL ++ "/bots/" ++ c.id, [], [("Authorization", c.botToken)],
         some (if count.isArr then JSVal.obj [("shards", count)]
               else JSVal.obj [("server_count", count)])⟩

/-- Handler of `postServerCount`: resolves with no value on success, rejects
with an HTTPError on transport failure. -/
def Client.postServerCountHandle (outcome : TransportOutcome) : Except PromiseErr Unit :=
  match outcome with
  | .ok _ => .ok ()
  | .error e => .error (.httpError (.transport e))

/-- Synchronous part of `getUser(id)`: id must be a string; one GET. -/
def Client.getUser (_c : Client) (id : JSVal) : Except JsError Request :=
  match id with
  | .str s => .ok ⟨"GET", baseURL ++ "/users/" ++ s, [], [], none⟩
  | _ => .error (.typeError "User ID must be a string")

/-- Handler of `getUser(id)`: wraps the body in a User. -/
def Client.getUserHandle (outcome : TransportOutcome) : Except PromiseErr User :=
  match outcome with
  | .ok body => .ok (User.construct body)
  | .error e => .error (.httpError (.transport e))

/-- Synchronous part of `getUserBots(id, page = 1)`: id must be a string,
page a number not less than 1.  The query value is `page || '1'` in the
source; page is a truthy number whenever validation passes, so the fallback
string is dead there, but it is kept faithfully. -/
def Client.getUserBots (_c : Client) (id : JSVal) (page : JSVal) : Except JsError Request :=
  match id with
  | .str s =>
    if ¬ page.isNum then .error (.typeError "Page must be a number")
    else if page.ltNum 1 then .error (.synError "Page must be a number greater than 0.")
    else .ok ⟨"GET", baseURL ++ "/users/" ++ s ++ "/bots",
              [("page", if page.truthy then page else .str "1")], [], none⟩
  | _ => .error (.typeError "User ID must be a string")

/-- The `.then` callback of `getUserBots`: character-for-character the same
mapping as in `getAllBots` in the source, including the envelope-indexed key
expression. -/
def getUserBotsThen (body : JSVal) : Except JsError (Pagination Bot) := do
  let pagination : Pagination Bot := Pagination.construct body
  let bots ← body.getProp "bots"
  let len ← bots.getProp "length"
  (List.range (iterCount len)).foldlM
    (fun pag i => do
      let item ← body.indexNum i
      let key ← item.getProp "id"
      let rawBot ← bots.indexNum i
      let bot ← Bot.construct rawBot
      pure (pag.set key bot))
    pagination

/-- Handler of `getUserBots`. -/
def Client.getUserBotsHandle (outcome : TransportOutcome) : Except PromiseErr (Pagination Bot) :=
  match outcome with
  | .ok body =>
    match getUserBotsThen body with
    | .ok p => .ok p
    | .error e => .error (.httpError (.thrown e))
  | .error e => .error (.httpError (.transport e))

/-- A demonstration client configuration (id and bot token strings, as the
Client constructor validates). -/
def demoClient : Client := ⟨"botid", none, "tok"⟩

/-- A bot-listing response envelope holding two bots with distinct ids. -/
def botsListBody : JSVal :=
  .obj [("bots", .arr [.obj [("id", .str "a")], .obj [("id", .str "b")]])]

/-- A transport failure value, as delivered by the HTTP layer. -/
def transportFailure : JSVal := .obj [("status", .num 404)]

/-- Page-1 upvotes response whose upvotes array is empty. -/
def firstPageBody : JSVal := .obj [("upvotes", .arr []), ("page", .num 1)]

/-- Page-2 upvotes response carrying the upvote of user "u0". -/
def laterPageBody : JSVal :=
  .obj [("upvotes", .arr [.obj [("id", .str "u0")]]), ("page", .num 2)]

/-- Claim C1: the claim says a successful getAllBots call whose body holds
bots [{id:"a"},{id:"b"}] resolves with a Pagination keyed by those ids in
response order.  The code instead reads each key from `result.body[i]` — an
index into the envelope object, which is undefined — so the `.then` callback
throws a TypeError and the promise rejects with an HTTPError for every
response with a non-empty bots array.  The claim matches the evident intent
(the entry wrapped as the value is `result.body.bots[i]`), so the code is the
slip; this theorem evaluates the code at the failing input. -/
theorem getAllBots_nonempty_listing_rejects :
    Client.getAllBotsHandle (.ok botsListBody) =
      .error (.httpError (.thrown
        (.typeError "Cannot read property id of undefined"))) := rfl

/-- Claim C2 counterexample: the claim says every page argument that is not
an integer greater than or equal to 1 makes the operation fail synchronously,
in particular getUpvotes(0).  In the code getUpvotes only checks that page is
a number, so getUpvotes(0) passes validation and issues the authorized GET
with page 0. -/
theorem getUpvotes_zero_page_issues_request :
    demoClient.getUpvotes (.num 0) =
      .ok ⟨"GET", "https://api.botlist.space/v1/bots/botid/upvotes",
           [("page", .num 0)], [("Authorization", "tok")], none⟩ := rfl

/-- Claim C2 (amended): getAllBots and getUserBots fail synchronously when
the page is not a number or is a number below 1; getUpvotes fails
synchronously only when the page is not a number, and issues the request for
every numeric page, including 0 and negative numbers. -/
theorem page_validation_by_operation (c : Client) (s : String) (page : JSVal) :
    (page.isNum = false →
      c.getAllBots page = .error (.typeError "Page must be a number") ∧
      c.getUpvotes page = .error (.typeError "Page must be a number.") ∧
      c.getUserBots (.str s) page = .error (.typeError "Page must be a number")) ∧
    (page.ltNum 1 = true →
      c.getAllBots page = .error (.synError "Page must be a number greater than 0.") ∧
      c.getUserBots (.str s) page =
        .error (.synError "Page must be a number greater than 0.")) ∧
    (page.isNum = true → ∃ r, c.getUpvotes page = .ok r) := by
  refine ⟨fun h => ?_, fun h => ?_, fun h => ?_⟩
  · refine ⟨?_, ?_, ?_⟩ <;>
      simp [Client.getAllBots, Client.getUpvotes, Client.getUserBots, h]
  · have hnum : page.isNum = true := by
      cases page <;> simp_all [JSVal.ltNum, JSVal.isNum]
    refine ⟨?_, ?_⟩ <;> simp [Client.getAllBots, Client.getUserBots, hnum, h]
  · exact ⟨⟨"GET", baseURL ++ "/bots/" ++ c.id ++ "/upvotes", [("page", page)],
      [("Authorization", c.botToken)], none⟩, by simp [Client.getUpvotes, h]⟩

/-- Claim C2 witness: at page 0, getAllBots and getUserBots throw the
SyntaxError while getUpvotes issues its request. -/
theorem page_validation_by_operation_witness :
    (demoClient.getAllBots (.num 0) =
        .error (.synError "Page must be a number greater than 0.") ∧
      demoClient.getUserBots (.str "u") (.num 0) =
        .error (.synError "Page must be a number greater than 0.")) ∧
    (∃ r, demoClient.getUpvotes (.num 0) = .ok r) :=
  ⟨(page_validation_by_operation demoClient "u" (.num 0)).2.1 rfl,
   (page_validation_by_operation demoClient "u" (.num 0)).2.2 rfl⟩

/-- Claim C3: the claim says every operation rejects with an HTTPError
wrapping the transport error, in particular getStatistics.  getStatistics
calls reject with two arguments, the raw error first and a fresh HTTPError
second; a JS promise rejects with the first argument only, so it rejects
with the raw transport error and the constructed HTTPError is discarded —
contradicting the source doc comment, which declares the rejection type as
HTTPError.  Every other operation does wrap (shown here for getAllBots). -/
theorem getStatistics_rejects_raw_transport_error :
    (Client.getStatisticsHandle (.error transportFailure) =
        .error (.transport transportFailure)) ∧
    (∀ cause, Client.getStatisticsHandle (.error transportFailure) ≠
        .error (.httpError cause)) ∧
    (∀ e : JSVal, Client.getAllBotsHandle (.error e) =
        .error (.httpError (.transport e))) := by
  refine ⟨rfl, ?_, fun e => rfl⟩
  intro cause h
  simp [Client.getStatisticsHandle] at h

/-- Claim C4 counterexample: the claim says constructing a Bot never throws
when fields are missing, including when owners is absent.  The constructor
loops over `bot.owners` up to its length, and reading `length` of an absent
owners field throws a TypeError: constructing a Bot from the empty object
throws. -/
theorem bot_missing_owners_throws :
    Bot.construct (.obj []) =
      .error (.typeError "Cannot read property length of undefined") := rfl

/-- Expansion of the Bot constructor on an object: every plain field copy
succeeds, so the construction reduces to the owners loop followed by the
record. -/
theorem bot_construct_obj (fs : List (String × JSVal)) :
    Bot.construct (.obj fs) =
      Except.bind (ownersLoop (jsLookup fs "owners")) (fun ow => Except.ok
        ⟨jsLookup fs "id", jsLookup fs "username", jsLookup fs "discriminator",
         jsLookup fs "short_description", jsLookup fs "full_description",
         jsLookup fs "avatar", jsLookup fs "invite",
         jsLookup fs "avatarChildFriendly", jsLookup fs "library",
         jsLookup fs "prefix", ow, jsLookup fs "vanity",
         jsLookup fs "links", jsLookup fs "created_at",
         jsLookup fs "updated_at"⟩) := rfl

/-- Claim C4 (amended): missing fields pass through as undefined for every
field except owners — with owners present (say the empty array), all other
absent wire fields surface as undefined on the wrapper and nothing is thrown;
with owners absent, the constructor throws a TypeError. -/
theorem bot_missing_fields_pass_through (fs : List (String × JSVal)) :
    (jsLookup fs "owners" = .arr [] →
      Bot.construct (.obj fs) = .ok
        ⟨jsLookup fs "id", jsLookup fs "username", jsLookup fs "discriminator",
         jsLookup fs "short_description", jsLookup fs "full_description",
         jsLookup fs "avatar", jsLookup fs "invite",
         jsLookup fs "avatarChildFriendly", jsLookup fs "library",
         jsLookup fs "prefix", Collection.empty, jsLookup fs "vanity",
         jsLookup fs "links", jsLookup fs "created_at",
         jsLookup fs "updated_at"⟩) ∧
    (jsLookup fs "owners" = .undefined →
      Bot.construct (.obj fs) =
        .error (.typeError "Cannot read property length of undefined")) := by
  constructor <;> intro h <;> rw [bot_construct_obj, h] <;> rfl

/-- Claim C4 witness: a bot object whose only field is an empty owners array
constructs, every other field passing through as undefined. -/
theorem bot_missing_fields_pass_through_witness :
    Bot.construct (.obj [("owners", .arr [])]) = .ok
      ⟨.undefined, .undefined, .undefined, .undefined, .undefined, .undefined,
       .undefined, .undefined, .undefined, .undefined, Collection.empty,
       .undefined, .undefined, .undefined, .undefined⟩ :=
  (bot_missing_fields_pass_through [("owners", .arr [])]).1 rfl

/-- Claim C5: given the same transport outcome, hasUpvoted resolves to true
exactly when getUpvotes resolves with a Pagination having the user id among
its keys; and the request hasUpvoted issues is the one of getUpvotes with the
default page 1. -/
theorem hasUpvoted_true_iff_key (c : Client) (u : String) (outcome : TransportOutcome) :
    c.hasUpvoted (.str u) = c.getUpvotes (.num 1) ∧
    (Client.hasUpvotedHandle (.str u) outcome = .ok true ↔
      ∃ pag, Client.getUpvotesHandle outcome = .ok pag ∧
        pag.has (.str u) = true) := by
  refine ⟨rfl, ?_⟩
  unfold Client.hasUpvotedHandle
  cases h : Client.getUpvotesHandle outcome with
  | ok pag => simp
  | error e => simp

/-- Claim C6: a numeric count posts a body with the single field
server_count, an array count posts a body with the single field shards, and
any other argument type throws synchronously. -/
theorem postServerCount_request_bodies (c : Client) :
    (∀ q : ℚ, c.postServerCount (.num q) =
      .ok ⟨"POST", baseURL ++ "/bots/" ++ c.id, [],
           [("Authorization", c.botToken)],
           some (.obj [("server_count", .num q)])⟩) ∧
    (∀ xs : List JSVal, c.postServerCount (.arr xs) =
      .ok ⟨"POST", baseURL ++ "/bots/" ++ c.id, [],
           [("Authorization", c.botToken)],
           some (.obj [("shards", .arr xs)])⟩) ∧
    (∀ v : JSVal, v.isNum = false → v.isArr = false →
      c.postServerCount v =
        .error (.typeError "Server count is not a number nor shards array")) := by
  refine ⟨fun q => rfl, fun xs => rfl, fun v h1 h2 => ?_⟩
  simp [Client.postServerCount, h1, h2]

/-- Claim C6 witness: a string count throws the TypeError. -/
theorem postServerCount_request_bodies_witness :
    demoClient.postServerCount (.str "5") =
      .error (.typeError "Server count is not a number nor shards array") :=
  (postServerCount_request_bodies demoClient).2.2 (.str "5") rfl rfl

/-- Claim C7: getSelfBot delegates to getBot with the construction-time id:
it produces the same request (the GET on the bot path of the configured id)
and its promise is the very one getBot returns, so the result handling
coincides. -/
theorem getSelfBot_same_request (c : Client) :
    c.getSelfBot = c.getBot (.str c.id) ∧
    c.getSelfBot = .ok ⟨"GET", baseURL ++ "/bots/" ++ c.id, [], [], none⟩ ∧
    ∀ outcome, Client.getSelfBotHandle outcome = Client.getBotHandle outcome :=
  ⟨rfl, rfl, fun _ => rfl⟩

/-- Claim C8: getAllBots at page 0, at any negative number, and at any
non-number argument throws synchronously — no request descriptor is ever
produced. -/
theorem getAllBots_invalid_page_throws (c : Client) (page : JSVal)
    (h : page = .num 0 ∨ (∃ q : ℚ, q < 0 ∧ page = .num q) ∨
         page.isNum = false) :
    ∃ e, c.getAllBots page = .error e := by
  rcases h with h | ⟨q, hq, h⟩ | h
  · subst h
    exact ⟨.synError "Page must be a number greater than 0.",
      by simp [Client.getAllBots, JSVal.isNum, JSVal.ltNum]⟩
  · subst h
    have h1 : q < 1 := hq.trans zero_lt_one
    exact ⟨.synError "Page must be a number greater than 0.",
      by simp [Client.getAllBots, JSVal.isNum, JSVal.ltNum, h1]⟩
  · exact ⟨.typeError "Page must be a number", by simp [Client.getAllBots, h]⟩

/-- Claim C8 witness: getAllBots at the page argument 0 throws. -/
theorem getAllBots_invalid_page_throws_witness :
    ∃ e, demoClient.getAllBots (.num 0) = .error e :=
  getAllBots_invalid_page_throws demoClient (.num 0) (Or.inl rfl)

/-- Claim C9: a raw bot object whose owners array holds two entries with
distinct ids yields a Bot whose owners collection has exactly two entries in
response order, each being the User wrapper of the raw owner object keyed by
its id. -/
theorem bot_two_owners_wrapped (fs : List (String × JSVal))
    (o1 o2 id1 id2 : JSVal)
    (howners : jsLookup fs "owners" = .arr [o1, o2])
    (h1 : o1.getProp "id" = .ok id1) (h2 : o2.getProp "id" = .ok id2)
    (hne : JSVal.beq id1 id2 = false) :
    (Bot.construct (.obj fs)).map (fun b => b.getOwners.entries) =
      .ok [(id1, User.construct o1), (id2, User.construct o2)] ∧
    (Bot.construct (.obj fs)).map (fun b => b.getOwners.array.length) =
      .ok 2 := by
  have expand : ownersLoop (.arr [o1, o2]) =
      Except.bind (Except.bind (o1.getProp "id")
          (fun k1 => Except.ok (Collection.empty.set k1 (User.construct o1))))
        (fun c1 => Except.bind (Except.bind (o2.getProp "id")
            (fun k2 => Except.ok (c1.set k2 (User.construct o2))))
          (fun c2 => Except.ok c2)) := rfl
  have hloop : ownersLoop (.arr [o1, o2]) =
      .ok ⟨[(id1, User.construct o1), (id2, User.construct o2)]⟩ := by
    rw [expand]
    simp only [h1, h2]
    simp [Except.bind, Collection.set, Collection.empty, Collection.has, hne]
  constructor <;> rw [bot_construct_obj, howners, hloop] <;> rfl

/-- Claim C9 witness: two owners with ids x and y. -/
theorem bot_two_owners_wrapped_witness :
    (Bot.construct (.obj [("owners",
        .arr [.obj [("id", .str "x")], .obj [("id", .str "y")]])])).map
      (fun b => b.getOwners.entries) =
      .ok [(.str "x", User.construct (.obj [("id", .str "x")])),
           (.str "y", User.construct (.obj [("id", .str "y")]))] :=
  (bot_two_owners_wrapped [("owners",
      .arr [.obj [("id", .str "x")], .obj [("id", .str "y")]])]
    (.obj [("id", .str "x")]) (.obj [("id", .str "y")])
    (.str "x") (.str "y") rfl rfl rfl rfl).1

/-- Claim C10: hasUpvoted always issues the page-1 getUpvotes request, so it
only consults the first page of the upvotes listing; with a server whose
first page has an empty upvotes array while a later page carries the upvote
of user "u0", hasUpvoted("u0") resolves to false. -/
theorem hasUpvoted_first_page_only :
    (∀ (c : Client) (u : String),
        c.hasUpvoted (.str u) = c.getUpvotes (.num 1)) ∧
    Client.hasUpvotedHandle (.str "u0") (.ok firstPageBody) = .ok false ∧
    laterPageBody.getProp "upvotes" = .ok (.arr [.obj [("id", .str "u0")]]) :=
  ⟨fun _ _ => rfl, rfl, rfl⟩

end ApiClient
